import Mathlib

/-!
Shallow embedding of the BatteryOBI driver
(src/ArduinoOBI/lib/BatteryOBI/BatteryOBI.cpp and BatteryOBI.h).

Bytes are modelled as `Nat` (values below 256 where the hardware
guarantees it); fallible transaction calls are modelled with `Option`.
The single-wire bus transport (OneWire) and the pin primitives are
external collaborators of the repository, so the driver operations are
parameterised over the outcome of each framing call, exactly at the
boundary where the C++ code checks the call's boolean result.
-/

namespace OBI

/-! Field decoders (FieldDecoder). -/

/-- Embeds `BatteryOBI::nibbleSwap` (BatteryOBI.cpp lines 99-103). -/
def nibbleSwap (b : Nat) : Nat :=
  let upperNibble := (b &&& 0xF0) >>> 4
  let lowerNibble := (b &&& 0x0F) <<< 4
  upperNibble ||| lowerNibble

/-- Embeds the inline voltage decode `((uint16_t)hi << 8) | lo`
(BatteryOBI.cpp lines 199-204). -/
def littleEndian16 (lo hi : Nat) : Nat := (hi <<< 8) ||| lo

/-- Conversion of an unsigned 16-bit pattern to the signed value the
C++ `int16_t` assignment produces (two's complement). -/
def toSigned16 (n : Nat) : Int :=
  if n < 32768 then (n : Int) else (n : Int) - 65536

/-- Embeds the inline temperature decode `((int16_t)hi << 8) | lo`
stored into an `int16_t` field (BatteryOBI.cpp lines 207-208). -/
def littleEndianSigned16 (lo hi : Nat) : Int :=
  toSigned16 (littleEndian16 lo hi)

/-! Command table (namespace MakitaLXT in BatteryOBI.h, lines 16-54). -/

namespace MakitaLXT

def READ_MSG_CMD : List Nat := [0xAA, 0x00]
def READ_MSG_RESPONSE_LEN : Nat := 40
def MODEL_CMD : List Nat := [0xDC, 0x0C]
def MODEL_RESPONSE_LEN : Nat := 16
def READ_DATA_CMD : List Nat := [0xD7, 0x00, 0x00, 0xFF]
def READ_DATA_RESPONSE_LEN : Nat := 29
def TESTMODE_CMD : List Nat := [0xD9, 0x96, 0xA5]
def LEDS_ON_CMD : List Nat := [0xDA, 0x31]
def LEDS_OFF_CMD : List Nat := [0xDA, 0x34]
def RESET_ERROR_CMD : List Nat := [0xDA, 0x04]

end MakitaLXT

/-! Wire-level model of the Variant A framer `cmdAndRead33`
(BatteryOBI.cpp lines 27-51).  The OneWire transport is modelled by a
read stream `reads : Nat → Nat` (the i-th byte the bus would deliver)
and an observable trace of bus events; the fixed delays are pure timing
and produce no observable byte-level effect. -/

inductive WireEvent where
  | reset
  | write (b : Nat)
  | readB (b : Nat)
deriving DecidableEq, Repr

structure BusState where
  readIdx : Nat
  trace : List WireEvent
deriving DecidableEq, Repr

def busReset (s : BusState) : BusState :=
  { s with trace := s.trace ++ [WireEvent.reset] }

def busWrite (b : Nat) (s : BusState) : BusState :=
  { s with trace := s.trace ++ [WireEvent.write b] }

def busRead (reads : Nat → Nat) (s : BusState) : Nat × BusState :=
  (reads s.readIdx,
   { readIdx := s.readIdx + 1,
     trace := s.trace ++ [WireEvent.readB (reads s.readIdx)] })

/-- Embeds a loop `for (...; count times) { rsp[i] = read(); i++ }`:
reads `count` bytes from the bus, storing them at consecutive buffer
indices starting at `i`. -/
def readBytesInto (reads : Nat → Nat) :
    List Nat → Nat → Nat → BusState → List Nat × BusState
  | buf, _, 0, s => (buf, s)
  | buf, i, count + 1, s =>
      let (b, s1) := busRead reads s
      readBytesInto reads (buf.set i b) (i + 1) count s1

/-- Embeds a loop `for (i = 0; i < cmdLen; i++) write(cmd[i])`. -/
def writeBytes : List Nat → BusState → BusState
  | [], s => s
  | b :: rest, s => writeBytes rest (busWrite b s)

/-- Embeds `BatteryOBI::cmdAndRead33` (BatteryOBI.cpp lines 27-51):
reset, write broadcast byte 0x33, read 8 ROM bytes into indices 0..7,
write the command bytes, read `rspLen` bytes into indices 8..rspLen+7,
return true. -/
def cmdAndRead33 (cmd : List Nat) (rsp : List Nat) (rspLen : Nat)
    (reads : Nat → Nat) (s : BusState) : Bool × List Nat × BusState :=
  let s1 := busWrite 0x33 (busReset s)
  let (r1, s2) := readBytesInto reads rsp 0 8 s1
  let s3 := writeBytes cmd s2
  let (r2, s4) := readBytesInto reads r1 8 rspLen s3
  (true, r2, s4)

/-- Consecutive buffer stores: `setSeq buf i bs` writes the bytes of
`bs` at indices `i, i+1, ...` of `buf`. -/
def setSeq : List Nat → Nat → List Nat → List Nat
  | buf, _, [] => buf
  | buf, i, b :: rest => setSeq (buf.set i b) (i + 1) rest

/-! Transaction-level model of the driver (BatteryOBI.cpp lines
105-286).  A public operation is a straight-line program that toggles
the enable pin, performs one or two framing calls and decodes or
reports an error.  The framing calls are the boundary to the external
OneWire transport: the driver checks each call's boolean result, so the
operations are parameterised over a `Framer` giving each call's
outcome (`none` = the call returned false, `some response` = it
returned true with `response i` at buffer index `i`).  The in-repo
framers always return true (`cmdAndRead33` above does), but the
failure branch is the C++ code translated verbatim. -/

inductive TEvent where
  | enable
  | disable
  | txn33 (cmd : List Nat) (rspLen : Nat)
  | txnCC (cmd : List Nat) (rspLen : Nat)
deriving DecidableEq, Repr

/-- Outcomes of the two framing variants the public operations use. -/
structure Framer where
  and33 : List Nat → Nat → Option (Nat → Nat)
  andCC : List Nat → Nat → Option (Nat → Nat)

/-- Driver state: the `char _lastError[64]` buffer (BatteryOBI.h line
161), modelled as a list of byte values of length 64. -/
structure Driver where
  lastError : List Nat
deriving DecidableEq, Repr

/-- Bytes of a message, as `strncpy` sees them (no terminator). -/
def strBytes (s : String) : List Nat := s.data.map Char.toNat

/-- The C string stored in a buffer: the bytes before the first NUL. -/
def cString (buf : List Nat) : List Nat := buf.takeWhile (fun c => c != 0)

/-- The `n` bytes `strncpy(dest, src, n)` writes: the bytes of `src` up
to its first NUL (or up to `n`), NUL-padded to exactly `n`. -/
def strncpyFill : List Nat → Nat → List Nat
  | _, 0 => []
  | [], n + 1 => 0 :: strncpyFill [] n
  | c :: rest, n + 1 =>
      if c = 0 then 0 :: strncpyFill [] n else c :: strncpyFill rest n

/-- Embeds `BatteryOBI::setError` (BatteryOBI.cpp lines 105-108):
`strncpy(_lastError, msg, 63)` then force `_lastError[63] = 0`. -/
def setError (msg : List Nat) (st : Driver) : Driver :=
  let copied := strncpyFill msg 63 ++ st.lastError.drop 63
  { lastError := copied.set 63 0 }

/-- Embeds `BatteryOBI::getLastError` (BatteryOBI.cpp lines 110-112):
the observable string is the buffer content up to the first NUL. -/
def getLastError (st : Driver) : List Nat := cString st.lastError

/-- Embeds `struct BatteryData` (BatteryOBI.h lines 59-78).  The char
arrays are byte lists; integer fields are `Nat` (unsigned) or `Int`
(the `int16_t` temperatures). -/
structure BatteryData where
  model : List Nat
  romId : List Nat
  chargeCount : Nat
  isLocked : Bool
  statusCode : Nat
  packVoltage : Nat
  cell1Voltage : Nat
  cell2Voltage : Nat
  cell3Voltage : Nat
  cell4Voltage : Nat
  cell5Voltage : Nat
  tempSensor1 : Int
  tempSensor2 : Int
  manufacturingYear : Nat
  manufacturingMonth : Nat
  manufacturingDay : Nat
  capacity : Nat
  batteryType : Nat
deriving DecidableEq, Repr

/-- Result of one public operation: boolean result, the caller-visible
output buffer/aggregate, the driver state, and the observable trace of
enable-pin toggles and framing calls, in program order. -/
structure OpResult (α : Type) where
  ok : Bool
  out : α
  driver : Driver
  trace : List TEvent
deriving Repr

/-- `%02X` hex digit pair for one byte, as `snprintf` renders it. -/
def hexByte (b : Nat) : List Nat :=
  let digit := fun n => if n < 10 then 48 + n else 55 + n
  [digit (b / 16 % 16), digit (b % 16)]

/-- The ROM-id string `snprintf` builds in `readBatteryInfo`
(BatteryOBI.cpp lines 152-155): eight `%02X` groups joined by spaces. -/
def romIdFormat (response : Nat → Nat) : List Nat :=
  List.intercalate [32] ((List.range 8).map fun i => hexByte (response i))

/-- Embeds `BatteryOBI::readModel` (BatteryOBI.cpp lines 114-135). -/
def readModel (fr : Framer) (model : List Nat) (st : Driver) :
    OpResult (List Nat) :=
  let tr := [TEvent.enable,
    TEvent.txnCC MakitaLXT.MODEL_CMD MakitaLXT.MODEL_RESPONSE_LEN]
  match fr.andCC MakitaLXT.MODEL_CMD MakitaLXT.MODEL_RESPONSE_LEN with
  | none =>
      { ok := false, out := model,
        driver := setError (strBytes ("Failed to read model")) st,
        trace := tr ++ [TEvent.disable] }
  | some response =>
      let m1 := setSeq model 0 ((List.range 7).map response)
      let m2 := m1.set 7 0
      { ok := true, out := m2, driver := st,
        trace := tr ++ [TEvent.disable] }

/-- Embeds `BatteryOBI::readBatteryInfo` (BatteryOBI.cpp lines
137-182). -/
def readBatteryInfo (fr : Framer) (data : BatteryData) (st : Driver) :
    OpResult BatteryData :=
  let tr := [TEvent.enable,
    TEvent.txn33 MakitaLXT.READ_MSG_CMD MakitaLXT.READ_MSG_RESPONSE_LEN,
    TEvent.disable]
  match fr.and33 MakitaLXT.READ_MSG_CMD MakitaLXT.READ_MSG_RESPONSE_LEN with
  | none =>
      { ok := false, out := data,
        driver := setError (strBytes ("Failed to read battery info")) st,
        trace := tr }
  | some response =>
      let swapped1 := nibbleSwap (response 45)
      let swapped2 := nibbleSwap (response 44)
      let chargeCount := (swapped1 <<< 8) ||| swapped2
      let lockNibble := response 38 &&& 0x0F
      { ok := true,
        out := { data with
          romId := romIdFormat response,
          manufacturingYear := response 10,
          manufacturingMonth := response 11,
          manufacturingDay := response 12,
          chargeCount := chargeCount &&& 0x0FFF,
          isLocked := decide (lockNibble > 0),
          statusCode := response 37,
          capacity := nibbleSwap (response 34),
          batteryType := nibbleSwap (response 29) },
        driver := st, trace := tr }

/-- Embeds `BatteryOBI::readBatteryData` (BatteryOBI.cpp lines
184-211). -/
def readBatteryData (fr : Framer) (data : BatteryData) (st : Driver) :
    OpResult BatteryData :=
  let tr := [TEvent.enable,
    TEvent.txnCC MakitaLXT.READ_DATA_CMD MakitaLXT.READ_DATA_RESPONSE_LEN,
    TEvent.disable]
  match fr.andCC MakitaLXT.READ_DATA_CMD MakitaLXT.READ_DATA_RESPONSE_LEN with
  | none =>
      { ok := false, out := data,
        driver := setError (strBytes ("Failed to read battery data")) st,
        trace := tr }
  | some response =>
      { ok := true,
        out := { data with
          packVoltage := littleEndian16 (response 0) (response 1),
          cell1Voltage := littleEndian16 (response 2) (response 3),
          cell2Voltage := littleEndian16 (response 4) (response 5),
          cell3Voltage := littleEndian16 (response 6) (response 7),
          cell4Voltage := littleEndian16 (response 8) (response 9),
          cell5Voltage := littleEndian16 (response 10) (response 11),
          tempSensor1 := littleEndianSigned16 (response 14) (response 15),
          tempSensor2 := littleEndianSigned16 (response 16) (response 17) },
        driver := st, trace := tr }

/-- Embeds `BatteryOBI::ledsOn` (BatteryOBI.cpp lines 213-236). -/
def ledsOn (fr : Framer) (st : Driver) : OpResult Unit :=
  match fr.and33 MakitaLXT.TESTMODE_CMD 9 with
  | none =>
      { ok := false, out := (),
        driver := setError (strBytes ("Failed to enter test mode")) st,
        trace := [TEvent.enable, TEvent.txn33 MakitaLXT.TESTMODE_CMD 9,
          TEvent.disable] }
  | some _ =>
      match fr.and33 MakitaLXT.LEDS_ON_CMD 9 with
      | none =>
          { ok := false, out := (),
            driver := setError (strBytes ("Failed to turn LEDs on")) st,
            trace := [TEvent.enable, TEvent.txn33 MakitaLXT.TESTMODE_CMD 9,
              TEvent.txn33 MakitaLXT.LEDS_ON_CMD 9, TEvent.disable] }
      | some _ =>
          { ok := true, out := (), driver := st,
            trace := [TEvent.enable, TEvent.txn33 MakitaLXT.TESTMODE_CMD 9,
              TEvent.txn33 MakitaLXT.LEDS_ON_CMD 9, TEvent.disable] }

/-- Embeds `BatteryOBI::ledsOff` (BatteryOBI.cpp lines 238-261). -/
def ledsOff (fr : Framer) (st : Driver) : OpResult Unit :=
  match fr.and33 MakitaLXT.TESTMODE_CMD 9 with
  | none =>
      { ok := false, out := (),
        driver := setError (strBytes ("Failed to enter test mode")) st,
        trace := [TEvent.enable, TEvent.txn33 MakitaLXT.TESTMODE_CMD 9,
          TEvent.disable] }
  | some _ =>
      match fr.and33 MakitaLXT.LEDS_OFF_CMD 9 with
      | none =>
          { ok := false, out := (),
            driver := setError (strBytes ("Failed to turn LEDs off")) st,
            trace := [TEvent.enable, TEvent.txn33 MakitaLXT.TESTMODE_CMD 9,
              TEvent.txn33 MakitaLXT.LEDS_OFF_CMD 9, TEvent.disable] }
      | some _ =>
          { ok := true, out := (), driver := st,
            trace := [TEvent.enable, TEvent.txn33 MakitaLXT.TESTMODE_CMD 9,
              TEvent.txn33 MakitaLXT.LEDS_OFF_CMD 9, TEvent.disable] }

/-- Embeds `BatteryOBI::clearErrors` (BatteryOBI.cpp lines 263-286). -/
def clearErrors (fr : Framer) (st : Driver) : OpResult Unit :=
  match fr.and33 MakitaLXT.TESTMODE_CMD 9 with
  | none =>
      { ok := false, out := (),
        driver := setError (strBytes ("Failed to enter test mode")) st,
        trace := [TEvent.enable, TEvent.txn33 MakitaLXT.TESTMODE_CMD 9,
          TEvent.disable] }
  | some _ =>
      match fr.and33 MakitaLXT.RESET_ERROR_CMD 9 with
      | none =>
          { ok := false, out := (),
            driver := setError (strBytes ("Failed to clear errors")) st,
            trace := [TEvent.enable, TEvent.txn33 MakitaLXT.TESTMODE_CMD 9,
              TEvent.txn33 MakitaLXT.RESET_ERROR_CMD 9, TEvent.disable] }
      | some _ =>
          { ok := true, out := (), driver := st,
            trace := [TEvent.enable, TEvent.txn33 MakitaLXT.TESTMODE_CMD 9,
              TEvent.txn33 MakitaLXT.RESET_ERROR_CMD 9, TEvent.disable] }

/-- The enable-line bracket every operation must respect: the first
observable event asserts the enable line, the line is deasserted
exactly once, and that deassertion is the last observable event. -/
def enableBracket (t : List TEvent) : Prop :=
  t.head? = some TEvent.enable ∧
  t.count TEvent.disable = 1 ∧
  t.getLast? = some TEvent.disable

instance (t : List TEvent) : Decidable (enableBracket t) := by
  unfold enableBracket
  infer_instance

lemma writeBytes_eq (cmd : List Nat) (s : BusState) :
    writeBytes cmd s =
      { s with trace := s.trace ++ cmd.map WireEvent.write } := by
  induction cmd generalizing s with
  | nil => simp [writeBytes]
  | cons b rest ih => simp [writeBytes, busWrite, ih]

lemma readBytesInto_eq (reads : Nat → Nat) (buf : List Nat)
    (i count : Nat) (s : BusState) :
    readBytesInto reads buf i count s =
      (setSeq buf i ((List.range count).map fun j => reads (s.readIdx + j)),
       { readIdx := s.readIdx + count,
         trace := s.trace ++
           (List.range count).map fun j =>
             WireEvent.readB (reads (s.readIdx + j)) }) := by
  induction count generalizing buf i s with
  | zero => simp [readBytesInto, setSeq]
  | succ k ih =>
      simp only [readBytesInto, busRead, ih]
      have hf : ((fun j => reads (s.readIdx + j)) ∘ Nat.succ) =
          fun j => reads (s.readIdx + 1 + j) := by
        funext j
        simp only [Function.comp_apply]
        congr 1
        omega
      have hg : ((fun j => WireEvent.readB (reads (s.readIdx + j))) ∘ Nat.succ) =
          fun j => WireEvent.readB (reads (s.readIdx + 1 + j)) := by
        funext j
        simp only [Function.comp_apply]
        congr 2
        omega
      rw [List.range_succ_eq_map, List.map_cons, List.map_cons,
        List.map_map, List.map_map, hf, hg]
      simp only [setSeq, Nat.add_zero, Prod.mk.injEq, BusState.mk.injEq,
        List.append_assoc, List.singleton_append, List.cons_append]
      exact ⟨trivial, by omega, rfl⟩

lemma setSeq_eq (bs : List Nat) (buf : List Nat) (i : Nat)
    (h : i + bs.length ≤ buf.length) :
    setSeq buf i bs = buf.take i ++ bs ++ buf.drop (i + bs.length) := by
  induction bs generalizing buf i with
  | nil =>
      simp [setSeq]
  | cons b rest ih =>
      simp only [setSeq]
      rw [ih (buf.set i b) (i + 1) (by simp at h ⊢; omega)]
      have hi : i < buf.length := by simp at h; omega
      have htake : (buf.set i b).take (i + 1) = buf.take i ++ [b] := by
        rw [List.set_take, List.take_succ]
        have hlen : (buf.take i).length = i := by
          simp [Nat.le_of_lt hi]
        rw [List.set_append_right _ _ (by omega)]
        simp [hlen, List.getElem?_eq_getElem hi]
      have hdrop : (buf.set i b).drop (i + 1 + rest.length) =
          buf.drop (i + 1 + rest.length) := by
        rw [List.drop_set, if_pos (by omega)]
      rw [htake, hdrop]
      have harith : i + (b :: rest).length = i + 1 + rest.length := by
        simp only [List.length_cons]
        omega
      rw [harith]
      simp [List.append_assoc]

lemma strncpyFill_length (src : List Nat) (n : Nat) :
    (strncpyFill src n).length = n := by
  induction n generalizing src with
  | zero => cases src <;> simp [strncpyFill]
  | succ k ih =>
      cases src with
      | nil => simp [strncpyFill, ih]
      | cons c rest =>
          by_cases hc : c = 0 <;> simp [strncpyFill, hc, ih]

lemma setError_eq (msg : List Nat) (st : Driver)
    (h64 : st.lastError.length = 64) :
    (setError msg st).lastError = strncpyFill msg 63 ++ [0] := by
  obtain ⟨a, ha⟩ :=
    List.length_eq_one.mp (by simp [h64] : (st.lastError.drop 63).length = 1)
  simp only [setError, ha]
  rw [List.set_append_right _ _ (by simp [strncpyFill_length])]
  simp [strncpyFill_length]

lemma getLastError_setError (msg : List Nat) (st : Driver)
    (h64 : st.lastError.length = 64) :
    getLastError (setError msg st) = cString (strncpyFill msg 63 ++ [0]) := by
  simp [getLastError, setError_eq msg st h64]

lemma cString_append_zero (xs : List Nat) :
    (cString (xs ++ [0])).length ≤ xs.length ∧
    (xs ++ [0])[(cString (xs ++ [0])).length]? = some 0 := by
  induction xs with
  | nil => simp [cString]
  | cons c rest ih =>
      by_cases hc : c = 0
      · simp [cString, hc]
      · have hc' : (c != 0) = true := by simpa using hc
        simp only [cString] at ih ⊢
        simp only [List.cons_append, List.takeWhile_cons, hc', if_true,
          List.length_cons, List.getElem?_cons_succ]
        exact ⟨Nat.succ_le_succ ih.1, ih.2⟩

/-! Concrete fixtures used by the closed instantiations below. -/

/-- A framer whose every call reports failure (fault injection at the
transaction boundary, spec section 7). -/
def frFail : Framer := ⟨fun _ _ => none, fun _ _ => none⟩

/-- Driver state with the 64-byte error buffer zeroed, as after the
constructor (BatteryOBI.cpp lines 8-11). -/
def st64 : Driver := ⟨List.replicate 64 0⟩

/-- A zero-initialised BatteryData aggregate. -/
def data0 : BatteryData :=
  ⟨[], [], 0, false, 0, 0, 0, 0, 0, 0, 0, 0, 0, 0, 0, 0, 0, 0⟩

/-- Response holding the charge-count golden bytes 0x21 / 0x43 at the
two designated offsets. -/
def respCharge : Nat → Nat :=
  fun i => if i = 45 then 0x21 else if i = 44 then 0x43 else 0

def frCharge : Framer := ⟨fun _ _ => some respCharge, fun _ _ => none⟩

/-- Response with every byte 0x12 (a byte that differs from its own
nibble swap 0x21). -/
def respRaw12 : Nat → Nat := fun _ => 0x12

def frRaw12 : Framer := ⟨fun _ _ => some respRaw12, fun _ _ => none⟩

/-- Response where byte `i` has value `i`. -/
def respIdent : Nat → Nat := fun i => i

def frIdent : Framer := ⟨fun _ _ => some respIdent, fun _ _ => some respIdent⟩

/-! Claim theorems. -/

set_option maxRecDepth 4000 in
/-- Claim C7: for every byte `b`, `nibbleSwap (nibbleSwap b) = b`, and
`nibbleSwap` exchanges the high and low 4-bit halves (the low nibble of
the input becomes the high nibble of the output and conversely). -/
theorem claim_C7_nibbleSwap_involution : ∀ b : Nat, b < 256 →
    nibbleSwap (nibbleSwap b) = b ∧
    nibbleSwap b = 16 * (b % 16) + b / 16 := by decide

/-- Witness for C7 at the concrete byte 0xA7. -/
theorem claim_C7_witness :
    nibbleSwap (nibbleSwap 0xA7) = 0xA7 ∧
    nibbleSwap 0xA7 = 16 * (0xA7 % 16) + 0xA7 / 16 :=
  claim_C7_nibbleSwap_involution 0xA7 (by decide)

/-- Claim C4: a Variant A transaction performs, in order, one bus
reset, a write of the broadcast byte 0x33, 8 byte-reads stored at
buffer indices 0..7, a write of each command byte in order, and N
byte-reads stored at indices 8..N+7, so the filled buffer has layout
[8 identifier bytes][N response bytes] of total length 8+N, and the
call returns true. -/
theorem claim_C4_cmdAndRead33_layout (cmd : List Nat) (rspLen : Nat)
    (reads : Nat → Nat) (rsp : List Nat) (h : rsp.length = 8 + rspLen) :
    cmdAndRead33 cmd rsp rspLen reads ⟨0, []⟩ =
      (true,
       ((List.range 8).map reads) ++
         ((List.range rspLen).map fun j => reads (8 + j)),
       ⟨8 + rspLen,
        [WireEvent.reset, WireEvent.write 0x33] ++
          ((List.range 8).map fun j => WireEvent.readB (reads j)) ++
          cmd.map WireEvent.write ++
          ((List.range rspLen).map fun j => WireEvent.readB (reads (8 + j)))⟩) := by
  simp only [cmdAndRead33, busReset, busWrite, readBytesInto_eq,
    writeBytes_eq, List.nil_append, Nat.zero_add]
  have h1 : setSeq rsp 0 ((List.range 8).map reads) =
      ((List.range 8).map reads) ++ rsp.drop 8 := by
    rw [setSeq_eq _ _ _ (by simp only [List.length_map, List.length_range, h]; omega)]
    simp
  have h2 : setSeq (((List.range 8).map reads) ++ rsp.drop 8) 8
        ((List.range rspLen).map fun j => reads (8 + j)) =
      ((List.range 8).map reads) ++
        ((List.range rspLen).map fun j => reads (8 + j)) := by
    rw [setSeq_eq _ _ _ (by
      simp only [List.length_append, List.length_map, List.length_range,
        List.length_drop, h]
      omega)]
    rw [List.take_left' (by simp)]
    rw [List.drop_eq_nil_of_le (by
      simp only [List.length_append, List.length_map, List.length_range,
        List.length_drop, h]
      omega)]
    simp
  rw [h1, h2]
  simp [List.append_assoc]

/-- Witness for C4 with a two-byte command, response length 2, the
identity read stream and an exactly sized buffer. -/
theorem claim_C4_witness :
    (List.replicate 10 0 : List Nat).length = 8 + 2 ∧
    cmdAndRead33 [0xAA, 0x00] (List.replicate 10 0) 2 (fun i => i) ⟨0, []⟩ =
      (true,
       ((List.range 8).map fun i => i) ++
         ((List.range 2).map fun j => 8 + j),
       ⟨8 + 2,
        [WireEvent.reset, WireEvent.write 0x33] ++
          ((List.range 8).map fun j => WireEvent.readB j) ++
          ([0xAA, 0x00].map WireEvent.write) ++
          ((List.range 2).map fun j => WireEvent.readB (8 + j))⟩) :=
  ⟨by decide,
   claim_C4_cmdAndRead33_layout [0xAA, 0x00] 2 (fun i => i)
     (List.replicate 10 0) (by decide)⟩

/-- Claim C1: every public operation (readModel, readBatteryInfo,
readBatteryData, ledsOn, ledsOff, clearErrors) asserts the enable line
as its first observable action and deasserts it exactly once, as its
last observable action, on the success path and on every
transaction-failure path. -/
theorem claim_C1_enable_deassert_once (fr : Framer) (model : List Nat)
    (data : BatteryData) (st : Driver) :
    enableBracket (readModel fr model st).trace ∧
    enableBracket (readBatteryInfo fr data st).trace ∧
    enableBracket (readBatteryData fr data st).trace ∧
    enableBracket (ledsOn fr st).trace ∧
    enableBracket (ledsOff fr st).trace ∧
    enableBracket (clearErrors fr st).trace := by
  refine ⟨?_, ?_, ?_, ?_, ?_, ?_⟩
  · rcases h : fr.andCC MakitaLXT.MODEL_CMD MakitaLXT.MODEL_RESPONSE_LEN with _ | r <;>
      · simp only [readModel, h]
        decide
  · rcases h : fr.and33 MakitaLXT.READ_MSG_CMD MakitaLXT.READ_MSG_RESPONSE_LEN with _ | r <;>
      · simp only [readBatteryInfo, h]
        decide
  · rcases h : fr.andCC MakitaLXT.READ_DATA_CMD MakitaLXT.READ_DATA_RESPONSE_LEN with _ | r <;>
      · simp only [readBatteryData, h]
        decide
  · rcases h1 : fr.and33 MakitaLXT.TESTMODE_CMD 9 with _ | r1
    · simp only [ledsOn, h1]
      decide
    · rcases h2 : fr.and33 MakitaLXT.LEDS_ON_CMD 9 with _ | r2 <;>
        · simp only [ledsOn, h1, h2]
          decide
  · rcases h1 : fr.and33 MakitaLXT.TESTMODE_CMD 9 with _ | r1
    · simp only [ledsOff, h1]
      decide
    · rcases h2 : fr.and33 MakitaLXT.LEDS_OFF_CMD 9 with _ | r2 <;>
        · simp only [ledsOff, h1, h2]
          decide
  · rcases h1 : fr.and33 MakitaLXT.TESTMODE_CMD 9 with _ | r1
    · simp only [clearErrors, h1]
      decide
    · rcases h2 : fr.and33 MakitaLXT.RESET_ERROR_CMD 9 with _ | r2 <;>
        · simp only [clearErrors, h1, h2]
          decide

/-- Claim C2: when the underlying transaction call fails, each read
operation returns false, records its operation-specific message, and
leaves the caller-supplied aggregate (respectively model buffer)
unmodified. -/
theorem claim_C2_read_failure_contract (fr : Framer) (model : List Nat)
    (data : BatteryData) (st : Driver) (h64 : st.lastError.length = 64) :
    (fr.andCC MakitaLXT.MODEL_CMD MakitaLXT.MODEL_RESPONSE_LEN = none →
      (readModel fr model st).ok = false ∧
      (readModel fr model st).out = model ∧
      getLastError (readModel fr model st).driver =
        strBytes ("Failed to read model")) ∧
    (fr.and33 MakitaLXT.READ_MSG_CMD MakitaLXT.READ_MSG_RESPONSE_LEN = none →
      (readBatteryInfo fr data st).ok = false ∧
      (readBatteryInfo fr data st).out = data ∧
      getLastError (readBatteryInfo fr data st).driver =
        strBytes ("Failed to read battery info")) ∧
    (fr.andCC MakitaLXT.READ_DATA_CMD MakitaLXT.READ_DATA_RESPONSE_LEN = none →
      (readBatteryData fr data st).ok = false ∧
      (readBatteryData fr data st).out = data ∧
      getLastError (readBatteryData fr data st).driver =
        strBytes ("Failed to read battery data")) := by
  refine ⟨fun h => ?_, fun h => ?_, fun h => ?_⟩
  · simp only [readModel, h]
    refine ⟨trivial, trivial, ?_⟩
    rw [getLastError_setError _ _ h64]
    decide
  · simp only [readBatteryInfo, h]
    refine ⟨trivial, trivial, ?_⟩
    rw [getLastError_setError _ _ h64]
    decide
  · simp only [readBatteryData, h]
    refine ⟨trivial, trivial, ?_⟩
    rw [getLastError_setError _ _ h64]
    decide

/-- Witness for C2: every transaction failing, zeroed error buffer. -/
theorem claim_C2_witness :
    ((readModel frFail (List.replicate 16 0) st64).ok = false ∧
     (readModel frFail (List.replicate 16 0) st64).out = List.replicate 16 0 ∧
     getLastError (readModel frFail (List.replicate 16 0) st64).driver =
       strBytes ("Failed to read model")) ∧
    ((readBatteryInfo frFail data0 st64).ok = false ∧
     (readBatteryInfo frFail data0 st64).out = data0 ∧
     getLastError (readBatteryInfo frFail data0 st64).driver =
       strBytes ("Failed to read battery info")) ∧
    ((readBatteryData frFail data0 st64).ok = false ∧
     (readBatteryData frFail data0 st64).out = data0 ∧
     getLastError (readBatteryData frFail data0 st64).driver =
       strBytes ("Failed to read battery data")) := by
  have h := claim_C2_read_failure_contract frFail (List.replicate 16 0)
    data0 st64 (by decide)
  exact ⟨h.1 rfl, h.2.1 rfl, h.2.2 rfl⟩

/-- Claim C3: for every response, readBatteryInfo stores
chargeCount = ((nibbleSwap a <<< 8) ||| nibbleSwap b) &&& 0x0FFF with
a, b the raw bytes at the two designated offsets (45 and 44 in the
Variant A buffer), a deterministic function of those two bytes, and the
stored value is at most 4095. -/
theorem claim_C3_chargeCount (fr : Framer) (data : BatteryData)
    (st : Driver) (response : Nat → Nat)
    (h : fr.and33 MakitaLXT.READ_MSG_CMD MakitaLXT.READ_MSG_RESPONSE_LEN =
      some response) :
    (readBatteryInfo fr data st).out.chargeCount =
      ((nibbleSwap (response 45) <<< 8) ||| nibbleSwap (response 44)) &&& 0x0FFF ∧
    (readBatteryInfo fr data st).out.chargeCount ≤ 4095 := by
  refine ⟨by simp [readBatteryInfo, h], ?_⟩
  simp only [readBatteryInfo, h]
  exact Nat.and_le_right

/-- Witness for C3 at the golden bytes 0x21 / 0x43, whose decoded
count is 0x234. -/
theorem claim_C3_witness :
    ((readBatteryInfo frCharge data0 st64).out.chargeCount =
       ((nibbleSwap (respCharge 45) <<< 8) ||| nibbleSwap (respCharge 44)) &&& 0x0FFF ∧
     (readBatteryInfo frCharge data0 st64).out.chargeCount ≤ 4095) ∧
    (readBatteryInfo frCharge data0 st64).out.chargeCount = 0x234 :=
  ⟨claim_C3_chargeCount frCharge data0 st64 respCharge rfl, by decide⟩

/-- Claim C5: ledsOn issues the test-mode-entry transaction
{0xD9,0x96,0xA5} and then the LED-on transaction {0xDA,0x31}, both
before the enable line is deasserted; if the first transaction fails
the second is never issued and ledsOn returns false with the message
"Failed to enter test mode". -/
theorem claim_C5_ledsOn_two_transactions (fr : Framer) (st : Driver)
    (h64 : st.lastError.length = 64) :
    (fr.and33 MakitaLXT.TESTMODE_CMD 9 = none →
      (ledsOn fr st).ok = false ∧
      getLastError (ledsOn fr st).driver =
        strBytes ("Failed to enter test mode") ∧
      (ledsOn fr st).trace =
        [TEvent.enable, TEvent.txn33 MakitaLXT.TESTMODE_CMD 9,
         TEvent.disable]) ∧
    (∀ f, fr.and33 MakitaLXT.TESTMODE_CMD 9 = some f →
     ∀ g, fr.and33 MakitaLXT.LEDS_ON_CMD 9 = some g →
      (ledsOn fr st).ok = true ∧
      (ledsOn fr st).trace =
        [TEvent.enable, TEvent.txn33 MakitaLXT.TESTMODE_CMD 9,
         TEvent.txn33 MakitaLXT.LEDS_ON_CMD 9, TEvent.disable]) := by
  refine ⟨fun h => ?_, fun f hf g hg => ?_⟩
  · simp only [ledsOn, h]
    refine ⟨trivial, ?_, trivial⟩
    rw [getLastError_setError _ _ h64]
    decide
  · simp only [ledsOn, hf, hg]
    exact ⟨trivial, trivial⟩

/-- Witness for C5: a failing first transaction (frFail) and a fully
succeeding framer (frIdent). -/
theorem claim_C5_witness :
    ((ledsOn frFail st64).ok = false ∧
     getLastError (ledsOn frFail st64).driver =
       strBytes ("Failed to enter test mode") ∧
     (ledsOn frFail st64).trace =
       [TEvent.enable, TEvent.txn33 MakitaLXT.TESTMODE_CMD 9,
        TEvent.disable]) ∧
    ((ledsOn frIdent st64).ok = true ∧
     (ledsOn frIdent st64).trace =
       [TEvent.enable, TEvent.txn33 MakitaLXT.TESTMODE_CMD 9,
        TEvent.txn33 MakitaLXT.LEDS_ON_CMD 9, TEvent.disable]) := by
  have h1 := claim_C5_ledsOn_two_transactions frFail st64 (by decide)
  have h2 := claim_C5_ledsOn_two_transactions frIdent st64 (by decide)
  exact ⟨h1.1 rfl, h2.2 respIdent rfl respIdent rfl⟩

/-- Claim C6 counterexample: with every response byte 0x12, the stored
status code is the raw byte 0x12, not its nibble swap 0x21 — the code
stores `response[37]` without swapping (BatteryOBI.cpp line 173), so
the claim that the status-code byte is nibble-swapped is false. -/
theorem claim_C6_counterexample :
    (readBatteryInfo frRaw12 data0 st64).out.statusCode ≠
      nibbleSwap (respRaw12 37) := by decide

/-- Claim C6 as amended: the capacity byte and the battery-type byte
are nibble-swapped before being stored, but the status-code byte is
stored raw. -/
theorem claim_C6_amended_decode (fr : Framer) (data : BatteryData)
    (st : Driver) (response : Nat → Nat)
    (h : fr.and33 MakitaLXT.READ_MSG_CMD MakitaLXT.READ_MSG_RESPONSE_LEN =
      some response) :
    (readBatteryInfo fr data st).out.statusCode = response 37 ∧
    (readBatteryInfo fr data st).out.capacity = nibbleSwap (response 34) ∧
    (readBatteryInfo fr data st).out.batteryType = nibbleSwap (response 29) := by
  simp [readBatteryInfo, h]

/-- Witness for the amended C6 at the identity response. -/
theorem claim_C6_witness :
    (readBatteryInfo frIdent data0 st64).out.statusCode = respIdent 37 ∧
    (readBatteryInfo frIdent data0 st64).out.capacity =
      nibbleSwap (respIdent 34) ∧
    (readBatteryInfo frIdent data0 st64).out.batteryType =
      nibbleSwap (respIdent 29) :=
  claim_C6_amended_decode frIdent data0 st64 respIdent rfl

/-- Claim C8: readBatteryData decodes each voltage pair as the
unsigned 16-bit little-endian value and each temperature pair as the
signed 16-bit value of the same byte order; in particular
littleEndian16 0x34 0x12 = 0x1234 and
littleEndianSigned16 0x00 0x80 = -32768. -/
theorem claim_C8_voltage_temperature_decode (fr : Framer)
    (data : BatteryData) (st : Driver) (response : Nat → Nat)
    (h : fr.andCC MakitaLXT.READ_DATA_CMD MakitaLXT.READ_DATA_RESPONSE_LEN =
      some response) :
    ((readBatteryData fr data st).out.packVoltage =
       littleEndian16 (response 0) (response 1) ∧
     (readBatteryData fr data st).out.cell1Voltage =
       littleEndian16 (response 2) (response 3) ∧
     (readBatteryData fr data st).out.cell2Voltage =
       littleEndian16 (response 4) (response 5) ∧
     (readBatteryData fr data st).out.cell3Voltage =
       littleEndian16 (response 6) (response 7) ∧
     (readBatteryData fr data st).out.cell4Voltage =
       littleEndian16 (response 8) (response 9) ∧
     (readBatteryData fr data st).out.cell5Voltage =
       littleEndian16 (response 10) (response 11) ∧
     (readBatteryData fr data st).out.tempSensor1 =
       littleEndianSigned16 (response 14) (response 15) ∧
     (readBatteryData fr data st).out.tempSensor2 =
       littleEndianSigned16 (response 16) (response 17)) ∧
    littleEndian16 0x34 0x12 = 0x1234 ∧
    littleEndianSigned16 0x00 0x80 = -32768 := by
  refine ⟨by simp [readBatteryData, h], by decide, by decide⟩

/-- Witness for C8 at the identity response. -/
theorem claim_C8_witness :
    (((readBatteryData frIdent data0 st64).out.packVoltage =
        littleEndian16 (respIdent 0) (respIdent 1) ∧
      (readBatteryData frIdent data0 st64).out.cell1Voltage =
        littleEndian16 (respIdent 2) (respIdent 3) ∧
      (readBatteryData frIdent data0 st64).out.cell2Voltage =
        littleEndian16 (respIdent 4) (respIdent 5) ∧
      (readBatteryData frIdent data0 st64).out.cell3Voltage =
        littleEndian16 (respIdent 6) (respIdent 7) ∧
      (readBatteryData frIdent data0 st64).out.cell4Voltage =
        littleEndian16 (respIdent 8) (respIdent 9) ∧
      (readBatteryData frIdent data0 st64).out.cell5Voltage =
        littleEndian16 (respIdent 10) (respIdent 11) ∧
      (readBatteryData frIdent data0 st64).out.tempSensor1 =
        littleEndianSigned16 (respIdent 14) (respIdent 15) ∧
      (readBatteryData frIdent data0 st64).out.tempSensor2 =
        littleEndianSigned16 (respIdent 16) (respIdent 17)) ∧
     littleEndian16 0x34 0x12 = 0x1234 ∧
     littleEndianSigned16 0x00 0x80 = -32768) :=
  claim_C8_voltage_temperature_decode frIdent data0 st64 respIdent rfl

/-- Claim C9: readBatteryInfo sets isLocked to true exactly when the
low nibble of the lock-status byte is non-zero; the byte 0x00 yields
false and the byte 0xF3 yields true. -/
theorem claim_C9_lock_flag (fr : Framer) (data : BatteryData)
    (st : Driver) (response : Nat → Nat)
    (h : fr.and33 MakitaLXT.READ_MSG_CMD MakitaLXT.READ_MSG_RESPONSE_LEN =
      some response) :
    ((readBatteryInfo fr data st).out.isLocked = true ↔
      0 < (response 38 &&& 0x0F)) ∧
    (response 38 = 0x00 → (readBatteryInfo fr data st).out.isLocked = false) ∧
    (response 38 = 0xF3 → (readBatteryInfo fr data st).out.isLocked = true) := by
  refine ⟨?_, fun hb => ?_, fun hb => ?_⟩
  · simp [readBatteryInfo, h]
  · simp [readBatteryInfo, h, hb]
  · simp [readBatteryInfo, h, hb]
    decide

/-- Witness for C9 at the identity response (lock byte 38, low nibble
6, so the flag reads locked). -/
theorem claim_C9_witness :
    ((readBatteryInfo frIdent data0 st64).out.isLocked = true ↔
      0 < (respIdent 38 &&& 0x0F)) :=
  (claim_C9_lock_flag frIdent data0 st64 respIdent rfl).1

/-- Claim C10: for every message, the stored last-error text is at
most 63 bytes, is followed by a NUL terminator inside the buffer, and
the 64-byte buffer keeps its size, so getLastError always returns a
valid NUL-terminated string fitting the buffer. -/
theorem claim_C10_setError_bounded (msg : List Nat) (st : Driver)
    (h64 : st.lastError.length = 64) :
    (getLastError (setError msg st)).length ≤ 63 ∧
    ((setError msg st).lastError)[(getLastError (setError msg st)).length]? =
      some 0 ∧
    ((setError msg st).lastError).length = 64 := by
  have he := setError_eq msg st h64
  have hc := cString_append_zero (strncpyFill msg 63)
  have hlen := strncpyFill_length msg 63
  refine ⟨?_, ?_, ?_⟩
  · rw [getLastError, he]
    exact hc.1.trans (Nat.le_of_eq hlen)
  · rw [getLastError, he]
    exact hc.2
  · rw [he]
    simp [hlen]

/-- Witness for C10 with a 70-byte message (forcing truncation). -/
theorem claim_C10_witness :
    (getLastError (setError (List.replicate 70 65) st64)).length ≤ 63 ∧
    ((setError (List.replicate 70 65) st64).lastError)[(getLastError
      (setError (List.replicate 70 65) st64)).length]? = some 0 ∧
    ((setError (List.replicate 70 65) st64).lastError).length = 64 :=
  claim_C10_setError_bounded (List.replicate 70 65) st64 (by decide)
